import Mathlib

/-!
Shallow embedding of the message-store core of `Mychatpro.py` (a two-person
file-backed chat) and proofs of its specified properties.

Modelling conventions:
- Instants in time are unix epochs in whole seconds (`Int`); the model is
  second-granular (the source compares `datetime` values, whose sub-second
  part never arises in the behaviours verified here).
- The timezone `Asia/Karachi` used by the source is a fixed UTC+5 offset
  (no DST in the era the program runs in), so `TZ.localize` of a naive civil
  time is modelled as "civil-time epoch minus 5 hours".
- The file system is modelled per store path: `Option FileContent`, where
  `none` is an absent file and `FileContent` classifies the stored bytes by
  how Python's `open`/`json.load` treats them.
- Side effects of a handler (warnings shown, writes performed, the new file
  state) are returned explicitly.
-/

namespace Mychatpro

/-- A naive civil date-time, as produced by `datetime.strptime`. -/
structure Civil where
  year : Int
  month : Nat
  day : Nat
  hour : Nat
  minute : Nat
  second : Nat
deriving Repr, DecidableEq

/-- Gregorian leap-year test, as in Python's `calendar`/`datetime` validation. -/
def isLeap (y : Int) : Bool :=
  (y % 4 == 0 && y % 100 != 0) || y % 400 == 0

/-- Number of days in a month, used by `datetime` to validate the day field. -/
def daysInMonth (y : Int) (m : Nat) : Nat :=
  if m == 2 then (if isLeap y then 29 else 28)
  else if m == 4 || m == 6 || m == 9 || m == 11 then 30
  else 31

/-- Days since 1970-01-01 of a civil date (standard civil-from-days inverse,
floor-division form). -/
def daysFromCivil (y : Int) (m d : Nat) : Int :=
  let yAdj : Int := if m ≤ 2 then y - 1 else y
  let era : Int := Int.fdiv yAdj 400
  let yoe : Int := yAdj - era * 400
  let doy : Int := ((153 * ((m + 9) % 12) + 2) / 5 + d - 1 : Nat)
  let doe : Int := yoe * 365 + Int.fdiv yoe 4 - Int.fdiv yoe 100 + doy
  era * 146097 + doe - 719468

/-- Civil date of a day count since 1970-01-01 (standard days-to-civil). -/
def civilFromDays (z0 : Int) : Int × Nat × Nat :=
  let z := z0 + 719468
  let era := Int.fdiv z 146097
  let doe := (z - era * 146097).toNat
  let yoe := (doe - doe / 1460 + doe / 36524 - doe / 146096) / 365
  let y : Int := (yoe : Int) + era * 400
  let doy := doe - (365 * yoe + yoe / 4 - yoe / 100)
  let mp := (5 * doy + 2) / 153
  let d := doy - (153 * mp + 2) / 5 + 1
  let m := if mp < 10 then mp + 3 else mp - 9
  (if m ≤ 2 then y + 1 else y, m, d)

/-- Epoch (in seconds) of a civil date-time read as UTC. -/
def epochOfCivil (c : Civil) : Int :=
  daysFromCivil c.year c.month c.day * 86400
    + (c.hour * 3600 + c.minute * 60 + c.second : Nat)

/-- `TZ = pytz.timezone("Asia/Karachi")`: fixed UTC+5, in seconds. -/
def karachiOffset : Int := 5 * 3600

/-- `TZ.localize(naive)`: the instant denoted by a naive civil time read in
the Karachi timezone. -/
def localize (c : Civil) : Int := epochOfCivil c - karachiOffset

end Mychatpro

namespace Mychatpro

/-! ### strptime-style parsing

The source parses timestamp strings with `datetime.strptime` against three
formats, then `datetime.fromisoformat`.  The parsers below work on the
string's character list.  Python's `_strptime` matches `%m`, `%d`, `%H`,
`%I`, `%M`, `%S` as one or two digits (ranges enforced), `%Y` as exactly
four digits, `%p` case-insensitively, and requires the whole string to be
consumed; for the three formats used here (every numeric field is followed
by a non-digit separator or the end of the string) that is equivalent to the
greedy two-digit-then-fallback reading implemented below.
-/

/-- Numeric value of a decimal digit character. -/
def digitVal (c : Char) : Nat := c.toNat - 48

/-- Read one or two decimal digits, greedily. -/
def takeNum2 : List Char → Option (Nat × List Char)
  | c1 :: c2 :: rest =>
      if c1.isDigit then
        if c2.isDigit then some (digitVal c1 * 10 + digitVal c2, rest)
        else some (digitVal c1, c2 :: rest)
      else none
  | [c1] => if c1.isDigit then some (digitVal c1, []) else none
  | [] => none

/-- Read exactly four decimal digits (`%Y`). -/
def takeNum4 : List Char → Option (Nat × List Char)
  | c1 :: c2 :: c3 :: c4 :: rest =>
      if c1.isDigit && c2.isDigit && c3.isDigit && c4.isDigit then
        some (((digitVal c1 * 10 + digitVal c2) * 10 + digitVal c3) * 10
                + digitVal c4, rest)
      else none
  | _ => none

/-- Match one literal character. -/
def lit (c : Char) : List Char → Option (List Char)
  | x :: rest => if x == c then some rest else none
  | [] => none

/-- Parse `%Y-%m-%d` with `datetime`'s range validation (year ≥ 1, month
1–12, day 1–days-in-month). -/
def parseDate (cs : List Char) : Option (Int × Nat × Nat × List Char) :=
  match takeNum4 cs with
  | none => none
  | some (y, cs) =>
    match lit '-' cs with
    | none => none
    | some cs =>
      match takeNum2 cs with
      | none => none
      | some (mo, cs) =>
        match lit '-' cs with
        | none => none
        | some cs =>
          match takeNum2 cs with
          | none => none
          | some (d, cs) =>
            if 1 ≤ y && 1 ≤ mo && mo ≤ 12 && 1 ≤ d && d ≤ daysInMonth y mo
            then some ((y : Int), mo, d, cs)
            else none

/-- Parse `HH:MM` (24-hour, ranges 0–23 / 0–59). -/
def parseHM (cs : List Char) : Option (Nat × Nat × List Char) :=
  match takeNum2 cs with
  | none => none
  | some (h, cs) =>
    match lit ':' cs with
    | none => none
    | some cs =>
      match takeNum2 cs with
      | none => none
      | some (mi, cs) =>
        if h ≤ 23 && mi ≤ 59 then some (h, mi, cs) else none

/-- Parse the `%p` field: `AM`/`PM`, case-insensitively as `_strptime` does. -/
def parseAmPm : List Char → Option (Bool × List Char)
  | c1 :: c2 :: rest =>
      if c2.toLower == 'm' then
        if c1.toLower == 'a' then some (false, rest)
        else if c1.toLower == 'p' then some (true, rest)
        else none
      else none
  | _ => none

/-- `strptime(s, "%Y-%m-%d %I:%M %p")`: 12-hour clock with AM/PM. -/
def parseFmt1 (s : String) : Option Civil :=
  match parseDate s.data with
  | none => none
  | some (y, mo, d, cs) =>
    match lit ' ' cs with
    | none => none
    | some cs =>
      match takeNum2 cs with
      | none => none
      | some (h12, cs) =>
        match lit ':' cs with
        | none => none
        | some cs =>
          match takeNum2 cs with
          | none => none
          | some (mi, cs) =>
            match lit ' ' cs with
            | none => none
            | some cs =>
              match parseAmPm cs with
              | none => none
              | some (isPm, cs) =>
                if cs.isEmpty && 1 ≤ h12 && h12 ≤ 12 && mi ≤ 59 then
                  let h :=
                    if isPm then (if h12 == 12 then 12 else h12 + 12)
                    else (if h12 == 12 then 0 else h12)
                  some ⟨y, mo, d, h, mi, 0⟩
                else none

/-- `strptime(s, "%Y-%m-%d %H:%M:%S")`. -/
def parseFmt2 (s : String) : Option Civil :=
  match parseDate s.data with
  | none => none
  | some (y, mo, d, cs) =>
    match lit ' ' cs with
    | none => none
    | some cs =>
      match parseHM cs with
      | none => none
      | some (h, mi, cs) =>
        match lit ':' cs with
        | none => none
        | some cs =>
          match takeNum2 cs with
          | none => none
          | some (sec, cs) =>
            if cs.isEmpty && sec ≤ 59 then some ⟨y, mo, d, h, mi, sec⟩
            else none

/-- `strptime(s, "%Y-%m-%d %H:%M")`. -/
def parseFmt3 (s : String) : Option Civil :=
  match parseDate s.data with
  | none => none
  | some (y, mo, d, cs) =>
    match lit ' ' cs with
    | none => none
    | some cs =>
      match parseHM cs with
      | none => none
      | some (h, mi, cs) =>
        if cs.isEmpty then some ⟨y, mo, d, h, mi, 0⟩ else none

end Mychatpro

namespace Mychatpro

/-- Read an exact count of decimal digits. -/
def takeExact : Nat → List Char → Option (Nat × List Char)
  | 0, cs => some (0, cs)
  | n + 1, c :: cs =>
      if c.isDigit then
        match takeExact n cs with
        | some (v, rest) => some (digitVal c * 10 ^ n + v, rest)
        | none => none
      else none
  | _ + 1, [] => none

/-- Optional time-of-day part of an ISO string: `HH[:MM[:SS[.fff[fff]]]]`,
two-digit fields, fractional seconds accepted and dropped (the model is
second-granular). -/
def parseIsoTime (cs : List Char) : Option (Nat × Nat × Nat × List Char) :=
  match takeExact 2 cs with
  | none => none
  | some (h, cs) =>
    if h ≤ 23 then
      match lit ':' cs with
      | none => some (h, 0, 0, cs)
      | some cs1 =>
        match takeExact 2 cs1 with
        | none => none
        | some (mi, cs) =>
          if mi ≤ 59 then
            match lit ':' cs with
            | none => some (h, mi, 0, cs)
            | some cs2 =>
              match takeExact 2 cs2 with
              | none => none
              | some (sec, cs) =>
                if sec ≤ 59 then
                  match lit '.' cs with
                  | none => some (h, mi, sec, cs)
                  | some cs3 =>
                    match takeExact 6 cs3 with
                    | some (_, cs) => some (h, mi, sec, cs)
                    | none =>
                      match takeExact 3 cs3 with
                      | some (_, cs) => some (h, mi, sec, cs)
                      | none => none
                else none
          else none
    else none

/-- Optional UTC-offset suffix of an ISO string: `±HH:MM`, in seconds. -/
def parseIsoOffset (cs : List Char) : Option (Int × List Char) :=
  match cs with
  | '+' :: cs =>
      (parseHM cs).map (fun (h, mi, rest) => (((h * 3600 + mi * 60 : Nat) : Int), rest))
  | '-' :: cs =>
      (parseHM cs).map (fun (h, mi, rest) => (-((h * 3600 + mi * 60 : Nat) : Int), rest))
  | _ => none

/-- `datetime.fromisoformat`, restricted to the documented pre-3.11 grammar
`YYYY-MM-DD[*HH[:MM[:SS[.fff[fff]]]][±HH:MM]]` where `*` is any single
separator character.  Returns the civil time and the explicit UTC offset
when one is present. -/
def fromisoformat (s : String) : Option (Civil × Option Int) :=
  match parseDate s.data with
  | none => none
  | some (y, mo, d, cs) =>
    match cs with
    | [] => some (⟨y, mo, d, 0, 0, 0⟩, none)
    | _ :: cs =>
      match parseIsoTime cs with
      | none => none
      | some (h, mi, sec, cs) =>
        match cs with
        | [] => some (⟨y, mo, d, h, mi, sec⟩, none)
        | _ =>
          match parseIsoOffset cs with
          | some (off, []) => some (⟨y, mo, d, h, mi, sec⟩, some off)
          | _ => none

/-- The instant denoted by a `fromisoformat` result: an aware value keeps
its own offset (then `astimezone(TZ)` does not move the instant), a naive
one is localized to Karachi time. -/
def isoInstant : Civil × Option Int → Int
  | (c, some off) => epochOfCivil c - off
  | (c, none) => localize c

/-- `parse_ts_to_aware`: try the three display formats in order, then the
generic ISO parse, else fall back to the current moment (`datetime.now(TZ)`,
passed in as `now`). -/
def parse_ts_to_aware (now : Int) (ts_str : String) : Int :=
  match parseFmt1 ts_str with
  | some c => localize c
  | none =>
    match parseFmt2 ts_str with
    | some c => localize c
    | none =>
      match parseFmt3 ts_str with
      | some c => localize c
      | none =>
        match fromisoformat ts_str with
        | some r => isoInstant r
        | none => now

/-- A message record.  `ts` and `read` model dictionary keys that may be
absent (`none` = key missing); `timestamp` models `m.get("timestamp", "")`
with `none` for a missing key. -/
structure Msg where
  sender : String
  text : String
  timestamp : Option String
  ts : Option Int
  read : Option Bool
deriving Repr, DecidableEq

/-- `msg_time_aware(m)`: the numeric epoch field wins when the `ts` key is
present (`datetime.fromtimestamp(m["ts"], TZ)` is the instant `m["ts"]`),
else the display string is parsed. -/
def msg_time_aware (now : Int) (m : Msg) : Int :=
  match m.ts with
  | some t => t
  | none => parse_ts_to_aware now (m.timestamp.getD "")

end Mychatpro

namespace Mychatpro

/-- `DATA_DIR`. -/
def DATA_DIR : String := "chat_data"

/-- `sorted([user1, user2])`, Python's stable two-element sort under the
lexicographic string order. -/
def sortedPair (user1 user2 : String) : List String :=
  if user2 < user1 then [user2, user1] else [user1, user2]

/-- `chat_file`: the store path for an unordered pair of identities. -/
def chat_file (user1 user2 : String) : String :=
  DATA_DIR ++ "/" ++ String.intercalate "_" (sortedPair user1 user2) ++ ".json"

/-- Classification of the bytes of an existing store file by how
`open(path, "r")` + `json.load` treat them. -/
inductive FileContent where
  /-- Decodes and parses as a JSON array of well-formed message records. -/
  | valid (msgs : List Msg)
  /-- Decodes and parses as JSON, but not as a list of records with
  correctly-typed fields (e.g. the file holds the JSON text `5`): the
  pruning pass then raises `TypeError`/`AttributeError`, which
  `load_messages` does not catch. -/
  | badShape
  /-- Decodes as text but fails JSON parsing: `json.JSONDecodeError`,
  the one exception `load_messages` catches. -/
  | badJson
  /-- Bytes that do not decode as text: `UnicodeDecodeError` from reading
  the file, not a `JSONDecodeError`, hence uncaught. -/
  | undecodable
deriving Repr, DecidableEq

/-- An uncaught Python exception escaping `load_messages`. -/
inductive PyError where
  | typeError
  | unicodeDecodeError
deriving Repr, DecidableEq

/-- What a call to `load_messages` did: the returned list, whether the
corruption warning was shown, whether `save_messages` was called, and the
file state afterwards. -/
structure LoadResult where
  msgs : List Msg
  warned : Bool
  wrote : Bool
  fs : Option FileContent
deriving Repr, DecidableEq

/-- `save_messages`: overwrite the file with the full list. -/
def save_messages (msgs : List Msg) : Option FileContent :=
  some (.valid msgs)

/-- `timedelta(days=2)` in seconds. -/
def retentionSeconds : Int := 2 * 86400

/-- The retention test `msg_dt >= cutoff` with `cutoff = now - 2 days`. -/
def keepMsg (now : Int) (m : Msg) : Bool :=
  decide (now - retentionSeconds ≤ msg_time_aware now m)

/-- `load_messages`: read the file (absent → empty; JSON error → warn and
return empty without touching the file; other bad content → uncaught
exception), prune messages older than the cutoff, and write the pruned list
back iff anything was dropped. -/
def load_messages (now : Int) (fs : Option FileContent) :
    Except PyError LoadResult :=
  match fs with
  | none => .ok ⟨[], false, false, none⟩
  | some .badJson => .ok ⟨[], true, false, some .badJson⟩
  | some .badShape => .error .typeError
  | some .undecodable => .error .unicodeDecodeError
  | some (.valid messages) =>
      let filtered := messages.filter (keepMsg now)
      let changed := messages.any (fun m => ! keepMsg now m)
      if changed then .ok ⟨filtered, false, true, save_messages filtered⟩
      else .ok ⟨filtered, false, false, some (.valid messages)⟩

end Mychatpro

namespace Mychatpro

/-- One step of the mark-read pass (the loop body at the top of the chat
UI): a message from the partner that is not yet read gets `read = True`;
everything else is untouched. -/
def markReadOne (partner : String) (m : Msg) : Msg :=
  if m.sender == partner && ! (m.read.getD false) then
    { m with read := some true }
  else m

/-- The whole mark-read pass over the loaded list. -/
def mark_read_pass (partner : String) (msgs : List Msg) : List Msg :=
  msgs.map (markReadOne partner)

/-- The read/unread marker rendered on a bubble (the HTML spans abbreviated
to their meaning). -/
inductive Tick where
  /-- Blue double tick: own message, read. -/
  | double
  /-- Gray single tick: own message, not read. -/
  | single
  /-- No tick: someone else's message. -/
  | nothing
deriving Repr, DecidableEq

/-- The tick expression of `render_message_bubble` (ticks are shown only on
the current user's own messages; `is_read` selects double vs single). -/
def render_ticks (sender current_user : String) (is_read : Bool) : Tick :=
  if sender == current_user && is_read then .double
  else if sender == current_user then .single
  else .nothing

/-- The tick the render loop produces for a record: it passes
`m.get("read", False)` as `is_read`. -/
def renderTicksFor (current_user : String) (m : Msg) : Tick :=
  render_ticks m.sender current_user (m.read.getD false)

/-- Zero-pad a number to two digits. -/
def pad2 (n : Nat) : String :=
  if n < 10 then "0" ++ toString n else toString n

/-- Zero-pad a year to four digits (`%Y` in `strftime`). -/
def pad4 (n : Nat) : String :=
  if n < 10 then "000" ++ toString n
  else if n < 100 then "00" ++ toString n
  else if n < 1000 then "0" ++ toString n
  else toString n

/-- `get_timestamp` / `now_aware.strftime("%Y-%m-%d %I:%M %p")`: the display
form of the instant `now` in Karachi time, 12-hour clock. -/
def get_timestamp (now : Int) : String :=
  let localSec := now + karachiOffset
  let days := Int.fdiv localSec 86400
  let sod := (localSec - days * 86400).toNat
  let ymd := civilFromDays days
  let h := sod / 3600
  let mi := sod % 3600 / 60
  let h12 := if h % 12 == 0 then 12 else h % 12
  let ampm := if h < 12 then "AM" else "PM"
  pad4 ymd.1.toNat ++ "-" ++ pad2 ymd.2.1 ++ "-" ++ pad2 ymd.2.2 ++ " "
    ++ pad2 h12 ++ ":" ++ pad2 mi ++ " " ++ ampm

/-- The record the send handler appends: stamped with the current time as
both display string and epoch, and `read = False`. -/
def new_message (user text : String) (now : Int) : Msg :=
  { sender := user
    text := text
    timestamp := some (get_timestamp now)
    ts := some now
    read := some false }

/-- The chat-UI cycle up to and including the send handler: load (pruning),
mark-read pass, unconditional save, then append the new record and save
again.  Returns the file state after the final save. -/
def send_message (user partner text : String) (now : Int)
    (fs : Option FileContent) : Except PyError (Option FileContent) :=
  (load_messages now fs).map (fun r =>
    let marked := mark_read_pass partner r.msgs
    let _fsAfterMark := save_messages marked
    save_messages (marked ++ [new_message user text now]))

/-- Outcome signalled by the delete handler. -/
inductive DeleteSignal where
  /-- `st.success("Chat deleted!")` after `os.remove`. -/
  | deleted
  /-- `st.warning("No chat found to delete.")`, nothing removed. -/
  | nothingToDelete
deriving Repr, DecidableEq

/-- The delete-chat handler: remove the backing file if it exists, else a
warning and no change. -/
def delete_chat (fs : Option FileContent) : DeleteSignal × Option FileContent :=
  match fs with
  | some _ => (.deleted, none)
  | none => (.nothingToDelete, none)

end Mychatpro

namespace Mychatpro

/-- C1: for every pair of participant identities `A` and `B`,
`chat_file A B` and `chat_file B A` are the identical store path: the path
is built from the two names sorted lexicographically and joined with `_`,
so it is deterministic and independent of argument order. -/
theorem chat_file_comm (A B : String) : chat_file A B = chat_file B A := by
  unfold chat_file sortedPair
  rcases lt_trichotomy A B with h | h | h
  · rw [if_neg (asymm h), if_pos h]
  · subst h; rfl
  · rw [if_pos h, if_neg (asymm h)]

/-- Marking a message read twice is the same as marking it once. -/
theorem markReadOne_idem (partner : String) (m : Msg) :
    markReadOne partner (markReadOne partner m) = markReadOne partner m := by
  simp only [markReadOne]
  split <;> simp_all

/-- C7: the mark-read pass is idempotent: applying it twice in succession
with the same reader yields the same final state as applying it once. -/
theorem mark_read_pass_idem (partner : String) (msgs : List Msg) :
    mark_read_pass partner (mark_read_pass partner msgs) =
      mark_read_pass partner msgs := by
  induction msgs with
  | nil => rfl
  | cons m rest ih =>
      simp only [mark_read_pass, List.map_cons] at ih ⊢
      rw [markReadOne_idem]
      exact congrArg _ ih

/-- C9: deleting the conversation when no store file exists signals
"nothing to delete" and leaves the file system unchanged; when the file
exists, delete removes it and signals success. -/
theorem delete_chat_spec (c : FileContent) :
    delete_chat none = (DeleteSignal.nothingToDelete, none) ∧
    delete_chat (some c) = (DeleteSignal.deleted, none) :=
  ⟨rfl, rfl⟩

/-- C10: a record lacking the `read` key is treated as unread: the
mark-read pass flips it to `read = true` when the sender is the partner,
and the render loop shows it with the single gray (unread) tick, exactly as
it would a record with an explicit `read = false`. -/
theorem missing_read_treated_unread (partner current_user : String) (m : Msg)
    (hread : m.read = none) :
    (m.sender = partner → markReadOne partner m = { m with read := some true }) ∧
    (m.sender = current_user →
      renderTicksFor current_user m = Tick.single ∧
      renderTicksFor current_user { m with read := some false } = Tick.single) := by
  constructor
  · intro h
    simp [markReadOne, h, hread]
  · intro h
    simp [renderTicksFor, render_ticks, h, hread]

/-- Witness for C10 at concrete records: a message from partner `B` with no
`read` key gets marked, and the current user's own keyless message renders
with the single tick. -/
theorem missing_read_treated_unread_witness :
    markReadOne "B" ⟨"B", "t", none, none, none⟩ =
      ⟨"B", "t", none, none, some true⟩ ∧
    renderTicksFor "A" ⟨"A", "t", none, none, none⟩ = Tick.single :=
  ⟨(missing_read_treated_unread "B" "X" ⟨"B", "t", none, none, none⟩ rfl).1 rfl,
   ((missing_read_treated_unread "X" "A" ⟨"A", "t", none, none, none⟩ rfl).2
      rfl).1⟩

/-- C3 counterexample: a store file whose bytes are valid JSON but not a
list of well-formed records (e.g. the file holds the text `5`) makes
`load_messages` raise an uncaught `TypeError` in its pruning loop — only
`json.JSONDecodeError` is caught — so load does not degrade to an empty
result for every unreadable content and a fatal error path exists. -/
theorem load_raises_on_nonlist_json :
    load_messages 0 (some .badShape) = .error .typeError := rfl

/-- C3 (amended): for a missing file `load_messages` returns the empty
sequence without raising, and for a file whose content fails JSON parsing
it returns the empty sequence with a recoverable warning and leaves the
file untouched; but content that is valid JSON of the wrong shape, or that
does not decode as text, raises an uncaught exception. -/
theorem load_degrades_on_missing_or_malformed (now : Int) :
    load_messages now none = .ok ⟨[], false, false, none⟩ ∧
    load_messages now (some .badJson) = .ok ⟨[], true, false, some .badJson⟩ ∧
    load_messages now (some .undecodable) = .error .unicodeDecodeError :=
  ⟨rfl, rfl, rfl⟩

end Mychatpro

namespace Mychatpro

/-- C6 counterexample: the pass tests `sender == partner`, not
`sender != reader`.  A stored record from a third sender `"C"` is unread
and not sent by the reader `"A"`, yet the pass run in `A`'s session (whose
partner is `"B"`) leaves its read flag false. -/
theorem mark_read_skips_third_party :
    ("C" : String) ≠ "A" ∧
    (⟨"C", "hi", none, some 0, some false⟩ : Msg).read.getD false = false ∧
    (mark_read_pass "B" [⟨"C", "hi", none, some 0, some false⟩]).map
        (fun m => m.read.getD false) = [false] := by
  decide

/-- C6 (amended): the mark-read pass toggles exactly the messages whose
sender equals the partner identity: an unread message from the partner gets
`read = true`, an already-read one is unchanged, and every message from any
other sender — in particular every message sent by the reader — is
unchanged. -/
theorem mark_read_pass_spec (partner : String) (msgs : List Msg) (m : Msg) :
    mark_read_pass partner msgs = msgs.map (markReadOne partner) ∧
    (m.sender = partner → m.read.getD false = false →
        markReadOne partner m = { m with read := some true }) ∧
    (m.sender = partner → m.read.getD false = true →
        markReadOne partner m = m) ∧
    (m.sender ≠ partner → markReadOne partner m = m) := by
  refine ⟨rfl, ?_, ?_, ?_⟩
  · intro h1 h2
    simp [markReadOne, h1, h2]
  · intro h1 h2
    simp [markReadOne, h1, h2]
  · intro h1
    simp [markReadOne, h1]

/-- Witness for C6 (amended) at concrete records: an unread message from
partner `B` is flipped, a read one is kept, and the reader `A`'s own
message is untouched. -/
theorem mark_read_pass_spec_witness :
    markReadOne "B" ⟨"B", "x", none, none, some false⟩ =
      ⟨"B", "x", none, none, some true⟩ ∧
    markReadOne "B" ⟨"B", "x", none, none, some true⟩ =
      ⟨"B", "x", none, none, some true⟩ ∧
    markReadOne "B" ⟨"A", "x", none, none, some false⟩ =
      ⟨"A", "x", none, none, some false⟩ :=
  ⟨(mark_read_pass_spec "B" [] ⟨"B", "x", none, none, some false⟩).2.1 rfl rfl,
   (mark_read_pass_spec "B" [] ⟨"B", "x", none, none, some true⟩).2.2.1 rfl rfl,
   (mark_read_pass_spec "B" [] ⟨"A", "x", none, none, some false⟩).2.2.2
     (by decide)⟩

/-- What `load_messages` does on a file that parses as a list of records:
it returns the retention-filtered list, warns nothing, and writes the
filtered list back exactly when some record failed the retention test. -/
theorem load_valid_msgs (now : Int) (msgs : List Msg) (r : LoadResult)
    (h : load_messages now (some (.valid msgs)) = .ok r) :
    r.msgs = msgs.filter (keepMsg now) ∧
    (r.wrote = true ↔ ∃ m ∈ msgs, keepMsg now m = false) ∧
    (r.wrote = true → r.fs = save_messages (msgs.filter (keepMsg now))) ∧
    (r.wrote = false → r.fs = some (.valid msgs)) ∧
    r.warned = false := by
  simp only [load_messages] at h
  split at h
  next hc =>
    rw [Except.ok.injEq] at h
    subst h
    refine ⟨rfl, ?_, fun _ => rfl, fun hf => by simp at hf, rfl⟩
    simpa using hc
  next hc =>
    rw [Except.ok.injEq] at h
    subst h
    refine ⟨rfl, ?_, fun ht => by simp at ht, fun _ => rfl, rfl⟩
    simpa using hc

end Mychatpro

namespace Mychatpro

/-- C2: a loaded message is retained exactly when its effective timestamp
is within the 2-day window measured from the current moment; in particular
one older than exactly 2 days + 1 second is removed by the pruning pass and
one exactly 2 days − 1 second old is retained. -/
theorem load_retention_boundary (now : Int) (msgs : List Msg) (m : Msg)
    (r : LoadResult) (h : load_messages now (some (.valid msgs)) = .ok r)
    (hm : m ∈ msgs) :
    (m ∈ r.msgs ↔ now - retentionSeconds ≤ msg_time_aware now m) ∧
    (msg_time_aware now m < now - (retentionSeconds + 1) → m ∉ r.msgs) ∧
    (msg_time_aware now m = now - (retentionSeconds - 1) → m ∈ r.msgs) := by
  have hmsgs := (load_valid_msgs now msgs r h).1
  rw [hmsgs]
  have hmem : m ∈ msgs.filter (keepMsg now) ↔
      now - retentionSeconds ≤ msg_time_aware now m := by
    rw [List.mem_filter]
    simp [keepMsg, hm]
  refine ⟨hmem, ?_, ?_⟩
  · intro hlt hin
    have := hmem.mp hin
    omega
  · intro heq
    exact hmem.mpr (by omega)

/-- Witness for C2: at `now = 1000000` a record with epoch `0` (far older
than the window) is dropped and a record with epoch `827201`
(= `now − 172799`, i.e. 2 days − 1 second old) is retained. -/
theorem load_retention_boundary_witness :
    (⟨"A", "old", none, some 0, none⟩ : Msg) ∉
      (⟨[⟨"B", "new", none, some 827201, none⟩], false, true,
          some (.valid [⟨"B", "new", none, some 827201, none⟩])⟩ :
        LoadResult).msgs ∧
    (⟨"B", "new", none, some 827201, none⟩ : Msg) ∈
      (⟨[⟨"B", "new", none, some 827201, none⟩], false, true,
          some (.valid [⟨"B", "new", none, some 827201, none⟩])⟩ :
        LoadResult).msgs :=
  ⟨(load_retention_boundary 1000000
      [⟨"A", "old", none, some 0, none⟩, ⟨"B", "new", none, some 827201, none⟩]
      ⟨"A", "old", none, some 0, none⟩ _ rfl (by decide)).2.1 (by decide),
   (load_retention_boundary 1000000
      [⟨"A", "old", none, some 0, none⟩, ⟨"B", "new", none, some 827201, none⟩]
      ⟨"B", "new", none, some 827201, none⟩ _ rfl (by decide)).2.2 (by decide)⟩

/-- C4: `load_messages` calls `save_messages` if and only if at least one
record was dropped by the retention filter; when it writes, the on-disk
file becomes exactly the pruned list, and when nothing was dropped the file
is left as it was. -/
theorem load_writeback_iff_dropped (now : Int) (msgs : List Msg)
    (r : LoadResult) (h : load_messages now (some (.valid msgs)) = .ok r) :
    (r.wrote = true ↔ ∃ m ∈ msgs, msg_time_aware now m < now - retentionSeconds) ∧
    (r.wrote = true → r.fs = save_messages (msgs.filter (keepMsg now))) ∧
    (r.wrote = false → r.fs = some (.valid msgs)) := by
  obtain ⟨-, hiff, hw, hnw, -⟩ := load_valid_msgs now msgs r h
  refine ⟨?_, hw, hnw⟩
  rw [hiff]
  simp only [keepMsg, decide_eq_false_iff_not, not_le]

/-- Witness for C4: at `now = 1000000`, loading a store holding one stale
and one fresh record writes the pruned list back, while loading a store
holding only the fresh record leaves the file untouched. -/
theorem load_writeback_iff_dropped_witness :
    (some (FileContent.valid [⟨"B", "new", none, some 827201, none⟩]) =
      save_messages (List.filter (keepMsg 1000000)
        [⟨"A", "old", none, some 0, none⟩,
         ⟨"B", "new", none, some 827201, none⟩])) ∧
    ((⟨[⟨"B", "new", none, some 827201, none⟩], false, false,
        some (.valid [⟨"B", "new", none, some 827201, none⟩])⟩ :
          LoadResult).wrote = true ↔
      ∃ m ∈ [(⟨"B", "new", none, some 827201, none⟩ : Msg)],
        msg_time_aware 1000000 m < 1000000 - retentionSeconds) :=
  ⟨(load_writeback_iff_dropped 1000000
      [⟨"A", "old", none, some 0, none⟩, ⟨"B", "new", none, some 827201, none⟩]
      ⟨[⟨"B", "new", none, some 827201, none⟩], false, true,
        some (.valid [⟨"B", "new", none, some 827201, none⟩])⟩ rfl).2.1 rfl,
   (load_writeback_iff_dropped 1000000
      [⟨"B", "new", none, some 827201, none⟩]
      ⟨[⟨"B", "new", none, some 827201, none⟩], false, false,
        some (.valid [⟨"B", "new", none, some 827201, none⟩])⟩ rfl).1⟩

end Mychatpro

namespace Mychatpro

/-- C5: the effective timestamp used for pruning prefers the numeric epoch
field `ts` when the key is present; otherwise the display string is parsed
against `%Y-%m-%d %I:%M %p`, `%Y-%m-%d %H:%M:%S`, `%Y-%m-%d %H:%M` in that
priority order, then the generic ISO parse; when nothing parses the message
is treated as "now", so it is never dropped solely because its timestamp
cannot be parsed. -/
theorem msg_time_priority (now : Int) (m : Msg) :
    (∀ t, m.ts = some t → msg_time_aware now m = t) ∧
    (m.ts = none →
      (∀ c, parseFmt1 (m.timestamp.getD "") = some c →
          msg_time_aware now m = localize c) ∧
      (parseFmt1 (m.timestamp.getD "") = none →
        ∀ c, parseFmt2 (m.timestamp.getD "") = some c →
          msg_time_aware now m = localize c) ∧
      (parseFmt1 (m.timestamp.getD "") = none →
       parseFmt2 (m.timestamp.getD "") = none →
        ∀ c, parseFmt3 (m.timestamp.getD "") = some c →
          msg_time_aware now m = localize c) ∧
      (parseFmt1 (m.timestamp.getD "") = none →
       parseFmt2 (m.timestamp.getD "") = none →
       parseFmt3 (m.timestamp.getD "") = none →
        ∀ r, fromisoformat (m.timestamp.getD "") = some r →
          msg_time_aware now m = isoInstant r) ∧
      (parseFmt1 (m.timestamp.getD "") = none →
       parseFmt2 (m.timestamp.getD "") = none →
       parseFmt3 (m.timestamp.getD "") = none →
       fromisoformat (m.timestamp.getD "") = none →
          msg_time_aware now m = now ∧ keepMsg now m = true)) := by
  constructor
  · intro t ht
    simp [msg_time_aware, ht]
  · intro hts
    simp only [msg_time_aware, hts]
    refine ⟨?_, ?_, ?_, ?_, ?_⟩
    · intro c h1
      simp [parse_ts_to_aware, h1]
    · intro h1 c h2
      simp [parse_ts_to_aware, h1, h2]
    · intro h1 h2 c h3
      simp [parse_ts_to_aware, h1, h2, h3]
    · intro h1 h2 h3 r h4
      simp [parse_ts_to_aware, h1, h2, h3, h4]
    · intro h1 h2 h3 h4
      refine ⟨by simp [parse_ts_to_aware, h1, h2, h3, h4], ?_⟩
      simp only [keepMsg, msg_time_aware, hts, parse_ts_to_aware, h1, h2, h3,
        h4, retentionSeconds, decide_eq_true_eq]
      omega

/-- Witness for C5 at concrete records (`now = 77`): the epoch field beats
a parsable display string; each display format and the ISO fallback is hit
by a string the earlier formats reject; an unparsable string falls back to
`now` and survives the retention filter. -/
theorem msg_time_priority_witness :
    msg_time_aware 77 ⟨"A", "x", some "2025-03-01 02:30 PM", some 42, none⟩ = 42 ∧
    msg_time_aware 77 ⟨"A", "x", some "2025-03-01 02:30 PM", none, none⟩ =
      1740821400 ∧
    msg_time_aware 77 ⟨"A", "x", some "2025-03-01 14:30:05", none, none⟩ =
      1740821405 ∧
    msg_time_aware 77 ⟨"A", "x", some "2025-03-01 14:30", none, none⟩ =
      1740821400 ∧
    msg_time_aware 77 ⟨"A", "x", some "2025-03-01T14:30:05+02:00", none, none⟩ =
      1740832205 ∧
    msg_time_aware 77 ⟨"A", "x", some "garbage", none, none⟩ = 77 ∧
    keepMsg 77 ⟨"A", "x", some "garbage", none, none⟩ = true :=
  ⟨(msg_time_priority 77 ⟨"A", "x", some "2025-03-01 02:30 PM", some 42, none⟩).1
      42 rfl,
   ((msg_time_priority 77
      ⟨"A", "x", some "2025-03-01 02:30 PM", none, none⟩).2 rfl).1
      ⟨2025, 3, 1, 14, 30, 0⟩ (by decide),
   ((msg_time_priority 77
      ⟨"A", "x", some "2025-03-01 14:30:05", none, none⟩).2 rfl).2.1
      (by decide) ⟨2025, 3, 1, 14, 30, 5⟩ (by decide),
   ((msg_time_priority 77
      ⟨"A", "x", some "2025-03-01 14:30", none, none⟩).2 rfl).2.2.1
      (by decide) (by decide) ⟨2025, 3, 1, 14, 30, 0⟩ (by decide),
   ((msg_time_priority 77
      ⟨"A", "x", some "2025-03-01T14:30:05+02:00", none, none⟩).2 rfl).2.2.2.1
      (by decide) (by decide) (by decide)
      (⟨2025, 3, 1, 14, 30, 5⟩, some 7200) (by decide),
   (((msg_time_priority 77 ⟨"A", "x", some "garbage", none, none⟩).2 rfl).2.2.2.2
      (by decide) (by decide) (by decide) (by decide)).1,
   (((msg_time_priority 77 ⟨"A", "x", some "garbage", none, none⟩).2 rfl).2.2.2.2
      (by decide) (by decide) (by decide) (by decide)).2⟩

end Mychatpro

namespace Mychatpro

/-- Every freshly appended record passes the retention test at the moment
it is stamped. -/
theorem keep_new_message (user text : String) (now : Int) :
    keepMsg now (new_message user text now) = true := by
  simp only [keepMsg, msg_time_aware, new_message, retentionSeconds,
    decide_eq_true_eq]
  omega

/-- C8: starting from an empty store, the send handler for
`{sender: "A", text: "hi"}` (stamped with the current time as both display
string and epoch) leaves exactly that one record on disk, and a subsequent
load returns exactly that one message, whose read flag is false. -/
theorem append_then_load (now : Int) (partner : String) (r : LoadResult)
    (h : load_messages now (save_messages [new_message "A" "hi" now]) = .ok r) :
    send_message "A" partner "hi" now none =
      .ok (save_messages [new_message "A" "hi" now]) ∧
    r.msgs = [new_message "A" "hi" now] ∧
    (new_message "A" "hi" now).read.getD false = false := by
  refine ⟨rfl, ?_, rfl⟩
  have hmsgs := (load_valid_msgs now [new_message "A" "hi" now] r h).1
  rw [hmsgs]
  simp [List.filter, keep_new_message]

/-- Witness for C8 at `now = 0`, partner `"B"`: the composed
send-then-load round trip on the concrete store. -/
theorem append_then_load_witness :
    send_message "A" "B" "hi" 0 none =
      .ok (save_messages [new_message "A" "hi" 0]) ∧
    (⟨[new_message "A" "hi" 0], false, false,
        some (.valid [new_message "A" "hi" 0])⟩ : LoadResult).msgs =
      [new_message "A" "hi" 0] ∧
    (new_message "A" "hi" 0).read.getD false = false :=
  append_then_load 0 "B"
    ⟨[new_message "A" "hi" 0], false, false,
      some (.valid [new_message "A" "hi" 0])⟩ rfl

end Mychatpro
